import Mathlib

/-!
Shallow embedding of the RAG frontend client:
API client module (`api.ts`, file `src/unnamed/part_000`) and the
UI controller (`src/frontend/src/App.tsx`).

HTTP is modelled by passing each call its server response explicitly:
a `Response T` carries the HTTP success flag (`response.ok`), the raw
body text (`response.text()`), and the parsed JSON body
(`response.json()` typed to `T`). Each API client function returns the
`FetchRequest` it issues together with the result of `handleResponse`.
Handlers of the UI controller are state transformers on `AppState`,
returning the new state and the list of requests issued, in order.
`await` chains are modelled by sequential composition: every handler
runs to completion before the next one starts, matching the
single-threaded event-loop execution described for this client.
-/

namespace RAG

/-- Mirrors `interface UploadResponse` of `api.ts`. Integer-valued JSON
numbers are modelled as `Int`. -/
structure UploadResponse where
  document_id : String
  file_name : String
  num_chars : Int
  num_chunks : Int
  encoder_name : String
  chunk_size : Int
  chunk_overlap : Int
deriving DecidableEq, Repr

/-- `interface CurrentDocumentResponse extends UploadResponse {}` -/
abbrev CurrentDocumentResponse := UploadResponse

/-- Mirrors `interface ChunkSummary`. -/
structure ChunkSummary where
  chunk_id : Int
  text : String
deriving DecidableEq, Repr

/-- Mirrors `interface SearchResult`; `score` is a JS floating-point
number, carried opaquely as `Float` (the client never computes with it,
it only stores and renders it). -/
structure SearchResult where
  chunk_id : Int
  score : Float
  text : String

/-- Mirrors `interface SearchResponse`. -/
structure SearchResponse where
  results : List SearchResult

/-- Mirrors `interface StorageEntry`. -/
structure StorageEntry where
  file_name : String
  size_bytes : Int
  modified_at : String
deriving DecidableEq, Repr

/-- Mirrors `interface StorageUploadResponse`. -/
structure StorageUploadResponse where
  file_name : String
  size_bytes : Int
  stored : Bool
deriving DecidableEq, Repr

/-- A `FormData` object: ordered `append`ed entries; a file entry is
represented by its file name. -/
structure FormData where
  entries : List (String × String)
deriving DecidableEq, Repr

/-- The parameter object of `loadFromStorage`. -/
structure LoadParams where
  file_name : String
  encoder_name : String
  chunk_size : Int
  chunk_overlap : Int
deriving DecidableEq, Repr

/-- Body of a `fetch` call: absent (GET), multipart form data, the JSON
body `{query, top_k}` of `/api/search`, or the JSON `LoadParams` body of
`/api/storage/load`. -/
inductive RequestBody where
  | none : RequestBody
  | form (fd : FormData) : RequestBody
  | jsonSearch (query : String) (top_k : Int) : RequestBody
  | jsonLoad (params : LoadParams) : RequestBody
deriving DecidableEq, Repr

/-- An HTTP request as issued by `fetch`. -/
structure FetchRequest where
  url : String
  method : String
  body : RequestBody
deriving DecidableEq, Repr

/-- A server response, as observed by the client: the HTTP success flag
`ok`, the raw body text, and the parsed JSON body typed to `T`. -/
structure Response (T : Type) where
  ok : Bool
  text : String
  json : T

/-- `export const API_BASE = 'http://localhost:8000'` -/
def API_BASE : String := "http://localhost:8000"

/-- The fixed fallback error message of `handleResponse`. -/
def fallbackMessage : String := "Ошибка запроса"

/-- JS string `a || b`: `a` when non-empty (truthy), else `b`. -/
def strOr (a b : String) : String := if a = "" then b else a

/-- `handleResponse` of `api.ts`: on `!response.ok`, throw an error whose
message is `text || 'Ошибка запроса'`; otherwise return the parsed JSON
body. Thrown errors are modelled as `Except.error`. -/
def handleResponse {T : Type} (response : Response T) : Except String T :=
  if !response.ok then
    Except.error (strOr response.text fallbackMessage)
  else
    Except.ok response.json

/-- Request issued by `uploadAndIndexDocument`. -/
def uploadRequest (formData : FormData) : FetchRequest :=
  { url := API_BASE ++ "/api/upload", method := "POST", body := .form formData }

/-- Request issued by `getCurrentDocument`. -/
def currentDocRequest : FetchRequest :=
  { url := API_BASE ++ "/api/document/current", method := "GET", body := .none }

/-- Request issued by `getCurrentChunks`. -/
def currentChunksRequest : FetchRequest :=
  { url := API_BASE ++ "/api/document/current/chunks", method := "GET", body := .none }

/-- Request issued by `searchInDocument`: POST with JSON body
`JSON.stringify({ query, top_k: topK })`. -/
def searchRequest (query : String) (topK : Int) : FetchRequest :=
  { url := API_BASE ++ "/api/search", method := "POST", body := .jsonSearch query topK }

/-- Request issued by `listStorageDocuments`. -/
def storageListRequest : FetchRequest :=
  { url := API_BASE ++ "/api/storage/list", method := "GET", body := .none }

/-- Request issued by `uploadToStorage`. -/
def storageUploadRequest (formData : FormData) : FetchRequest :=
  { url := API_BASE ++ "/api/storage/upload", method := "POST", body := .form formData }

/-- Request issued by `loadFromStorage`. -/
def storageLoadRequest (params : LoadParams) : FetchRequest :=
  { url := API_BASE ++ "/api/storage/load", method := "POST", body := .jsonLoad params }

/-- `uploadAndIndexDocument(formData)`: POST the form to `/api/upload`
and handle the response. -/
def uploadAndIndexDocument (formData : FormData) (res : Response UploadResponse) :
    FetchRequest × Except String UploadResponse :=
  (uploadRequest formData, handleResponse res)

/-- `getCurrentDocument()`: GET `/api/document/current`. -/
def getCurrentDocument (res : Response CurrentDocumentResponse) :
    FetchRequest × Except String CurrentDocumentResponse :=
  (currentDocRequest, handleResponse res)

/-- `getCurrentChunks()`: GET `/api/document/current/chunks`. -/
def getCurrentChunks (res : Response (List ChunkSummary)) :
    FetchRequest × Except String (List ChunkSummary) :=
  (currentChunksRequest, handleResponse res)

/-- `searchInDocument(query, topK)`: POST `{query, top_k: topK}` to
`/api/search`. -/
def searchInDocument (query : String) (topK : Int) (res : Response SearchResponse) :
    FetchRequest × Except String SearchResponse :=
  (searchRequest query topK, handleResponse res)

/-- `listStorageDocuments()`: GET `/api/storage/list`. -/
def listStorageDocuments (res : Response (List StorageEntry)) :
    FetchRequest × Except String (List StorageEntry) :=
  (storageListRequest, handleResponse res)

/-- `uploadToStorage(formData)`: POST the form to `/api/storage/upload`. -/
def uploadToStorage (formData : FormData) (res : Response StorageUploadResponse) :
    FetchRequest × Except String StorageUploadResponse :=
  (storageUploadRequest formData, handleResponse res)

/-- `loadFromStorage(params)`: POST `params` as JSON to `/api/storage/load`. -/
def loadFromStorage (params : LoadParams) (res : Response UploadResponse) :
    FetchRequest × Except String UploadResponse :=
  (storageLoadRequest params, handleResponse res)

/-- The response-handling rule the spec states for every API client
function: on non-success status the error message is the body text when
non-empty, else the fixed fallback; on success the parsed JSON body is
returned unchanged. -/
def errorRuleHolds {T : Type} (result : Except String T) (r : Response T) : Prop :=
  (r.ok = false → r.text ≠ "" → result = Except.error r.text) ∧
  (r.ok = false → r.text = "" → result = Except.error fallbackMessage) ∧
  (r.ok = true → result = Except.ok r.json)

theorem handleResponse_errorRule {T : Type} (r : Response T) :
    errorRuleHolds (handleResponse r) r := by
  obtain ⟨ok, text, json⟩ := r
  cases ok <;> refine ⟨?_, ?_, ?_⟩ <;>
    simp_all [errorRuleHolds, handleResponse, strOr]

/-- JS `String.prototype.trim()`: the string with whitespace removed
from both ends (executable model; Lean's own `String.trim` does not
kernel-reduce). -/
def jsTrim (s : String) : String :=
  ⟨((s.data.dropWhile Char.isWhitespace).reverse.dropWhile Char.isWhitespace).reverse⟩

/-- The view state of the `App` component: one field per `useState`
hook (refs and the JSX are not state). -/
structure AppState where
  encoderName : String
  chunkSize : Int
  chunkOverlap : Int
  currentDoc : Option CurrentDocumentResponse
  chunks : List ChunkSummary
  storage : List StorageEntry
  query : String
  topK : Int
  searchResults : List SearchResult
  status : String
  isLoading : Bool

/-- The status template used on success by `refreshCurrentDocument`,
`handleUploadAndIndex` and `handleMakeCurrent`:
`Текущий документ: ..., чанков: ..., модель: ...`. -/
def docStatus (info : UploadResponse) : String :=
  "Текущий документ: " ++ info.file_name ++ ", чанков: " ++ toString info.num_chunks
    ++ ", модель: " ++ info.encoder_name

/-- The catch-clause status template `Ошибка: ...`. -/
def statusError (msg : String) : String := "Ошибка: " ++ msg

/-- `refreshStorage`: list storage; on success replace the storage list,
on failure set the error status. -/
def refreshStorage (s : AppState) (res : Response (List StorageEntry)) :
    AppState × List FetchRequest :=
  let (req, r) := listStorageDocuments res
  match r with
  | .ok list => ({ s with storage := list }, [req])
  | .error msg => ({ s with status := statusError msg }, [req])

/-- `refreshCurrentDocument`: get the current document; on success set it
and the document status, on failure clear it and set the default status. -/
def refreshCurrentDocument (s : AppState) (res : Response CurrentDocumentResponse) :
    AppState × List FetchRequest :=
  let (req, r) := getCurrentDocument res
  match r with
  | .ok info => ({ s with currentDoc := some info, status := docStatus info }, [req])
  | .error _ => ({ s with currentDoc := none, status := "Документ не загружен" }, [req])

/-- `refreshChunks`: get the chunks of the current document; on success
replace the chunk list, on failure clear it and set the chunk-error
status. -/
def refreshChunks (s : AppState) (res : Response (List ChunkSummary)) :
    AppState × List FetchRequest :=
  let (req, r) := getCurrentChunks res
  match r with
  | .ok data => ({ s with chunks := data }, [req])
  | .error _ =>
      ({ s with chunks := [], status := "Нет документа или не удалось загрузить чанки" }, [req])

/-- The mount effect
`refreshStorage(); refreshCurrentDocument().then(() => refreshChunks())`:
requests are issued in this order; `refreshCurrentDocument` never
rejects (it catches internally), so `refreshChunks` always runs. The
un-awaited `refreshStorage` promise is sequenced first here; it touches
only the storage list (or the status, on failure) before the other two
handlers run. -/
def mount (s : AppState) (storageRes : Response (List StorageEntry))
    (docRes : Response CurrentDocumentResponse) (chunksRes : Response (List ChunkSummary)) :
    AppState × List FetchRequest :=
  let (s1, r1) := refreshStorage s storageRes
  let (s2, r2) := refreshCurrentDocument s1 docRes
  let (s3, r3) := refreshChunks s2 chunksRes
  (s3, r1 ++ r2 ++ r3)

/-- `handleUploadAndIndex`: `selectedFile` is
`uploadInputRef.current.files[0]` (by name), `none` when absent. With a
file: build the form, set the busy flag and progress status, upload;
on success set the current document, refresh chunks, then set the
document status; on failure set the error status; finally clear the
busy flag. -/
def handleUploadAndIndex (s : AppState) (selectedFile : Option String)
    (uploadRes : Response UploadResponse) (chunksRes : Response (List ChunkSummary)) :
    AppState × List FetchRequest :=
  match selectedFile with
  | none => ({ s with status := "Выберите .txt файл для загрузки" }, [])
  | some fileName =>
    let formData : FormData :=
      ⟨[("file", fileName), ("encoder_name", s.encoderName),
        ("chunk_size", toString s.chunkSize), ("chunk_overlap", toString s.chunkOverlap)]⟩
    let s0 := { s with isLoading := true, status := "Загрузка и индексация..." }
    let (req, r) := uploadAndIndexDocument formData uploadRes
    match r with
    | .ok resp =>
      let (s1, reqs1) := refreshChunks { s0 with currentDoc := some resp } chunksRes
      ({ s1 with status := docStatus resp, isLoading := false }, req :: reqs1)
    | .error msg =>
      ({ s0 with status := statusError msg, isLoading := false }, [req])

/-- `handleSearch`: on `!query.trim()` only set the prompt status and
return (no request); otherwise set the busy flag and progress status,
search; on success replace the results and report their count, on
failure set the error status and clear the results; finally clear the
busy flag. -/
def handleSearch (s : AppState) (res : Response SearchResponse) :
    AppState × List FetchRequest :=
  if jsTrim s.query = "" then
    ({ s with status := "Введите запрос для поиска" }, [])
  else
    let s0 := { s with isLoading := true, status := "Идёт поиск..." }
    let (req, r) := searchInDocument s.query s.topK res
    match r with
    | .ok resp =>
      ({ s0 with
          searchResults := resp.results,
          status := "Найдено результатов: " ++ toString resp.results.length,
          isLoading := false }, [req])
    | .error msg =>
      ({ s0 with status := statusError msg, searchResults := [], isLoading := false }, [req])

/-- The `drop` listener of the storage drop zone: with a dropped file,
upload it to storage; on success set the done status THEN refresh the
storage list; on failure set the error status. -/
def handleDrop (s : AppState) (droppedFile : Option String)
    (uploadRes : Response StorageUploadResponse) (listRes : Response (List StorageEntry)) :
    AppState × List FetchRequest :=
  match droppedFile with
  | none => (s, [])
  | some fileName =>
    let formData : FormData := ⟨[("file", fileName)]⟩
    let s0 := { s with status := "Загрузка файла в хранилище..." }
    let (req, r) := uploadToStorage formData uploadRes
    match r with
    | .ok _ =>
      let (s1, reqs1) := refreshStorage { s0 with status := "Файл добавлен в хранилище" } listRes
      (s1, req :: reqs1)
    | .error msg => ({ s0 with status := statusError msg }, [req])

/-- `handleStorageUploadClick` (file picked via the created input): like
the drop listener but the done status is set AFTER the storage refresh. -/
def handleStorageUploadClick (s : AppState) (pickedFile : Option String)
    (uploadRes : Response StorageUploadResponse) (listRes : Response (List StorageEntry)) :
    AppState × List FetchRequest :=
  match pickedFile with
  | none => (s, [])
  | some fileName =>
    let formData : FormData := ⟨[("file", fileName)]⟩
    let s0 := { s with status := "Загрузка файла в хранилище..." }
    let (req, r) := uploadToStorage formData uploadRes
    match r with
    | .ok _ =>
      let (s1, reqs1) := refreshStorage s0 listRes
      ({ s1 with status := "Файл добавлен в хранилище" }, req :: reqs1)
    | .error msg => ({ s0 with status := statusError msg }, [req])

/-- `handleMakeCurrent(fileName)`: set the busy flag and progress
status, load the stored file with the current encoder/chunk parameters;
on success set the current document, refresh chunks, set the document
status; on failure set the error status; finally clear the busy flag. -/
def handleMakeCurrent (s : AppState) (fileName : String)
    (loadRes : Response UploadResponse) (chunksRes : Response (List ChunkSummary)) :
    AppState × List FetchRequest :=
  let s0 := { s with isLoading := true, status := "Загрузка из хранилища..." }
  let (req, r) := loadFromStorage
    ⟨fileName, s.encoderName, s.chunkSize, s.chunkOverlap⟩ loadRes
  match r with
  | .ok resp =>
    let (s1, reqs1) := refreshChunks { s0 with currentDoc := some resp } chunksRes
    ({ s1 with status := docStatus resp, isLoading := false }, req :: reqs1)
  | .error msg =>
    ({ s0 with status := statusError msg, isLoading := false }, [req])

/-- JSX: the upload-and-index button has `disabled={isLoading}`. -/
def uploadAndIndexButtonDisabled (s : AppState) : Bool := s.isLoading

/-- JSX: the search button has `disabled={isLoading}`. -/
def searchButtonDisabled (s : AppState) : Bool := s.isLoading

/-- JSX: the make-current button of a storage entry has no `disabled`
attribute. -/
def makeCurrentButtonDisabled (_s : AppState) : Bool := false

/-- JSX: the storage-upload (file pick) button has no `disabled`
attribute. -/
def storageUploadButtonDisabled (_s : AppState) : Bool := false

/-- JSX: the refresh-storage button has no `disabled` attribute. -/
def refreshStorageButtonDisabled (_s : AppState) : Bool := false

/-- JSX: the refresh-chunks button has no `disabled` attribute. -/
def refreshChunksButtonDisabled (_s : AppState) : Bool := false

/-- The initial view state of `App`: the initial value of every
`useState` hook. -/
def initialAppState : AppState :=
  { encoderName := "mini", chunkSize := 800, chunkOverlap := 200, currentDoc := none,
    chunks := [], storage := [], query := "", topK := 3, searchResults := [],
    status := "Документ не загружен", isLoading := false }

/-- A concrete document descriptor, for concrete evaluations. -/
def sampleDoc : UploadResponse :=
  { document_id := "doc-1", file_name := "notes.txt", num_chars := 4000, num_chunks := 5,
    encoder_name := "mini", chunk_size := 800, chunk_overlap := 200 }

/-- A concrete search response with two results. -/
def sampleSearch : SearchResponse :=
  ⟨[⟨2, 0.91, "первый фрагмент"⟩, ⟨0, 0.44, "второй фрагмент"⟩]⟩

/-- A concrete reachable-looking view state: a non-empty query and a
non-empty chunk list. -/
def sampleState : AppState :=
  { initialAppState with query := "hello", chunks := [⟨0, "старый чанк"⟩] }

/-- The view state other than the status message (and the busy flag) is
unchanged between `s` and `t`. -/
def viewFrameExceptStatus (s t : AppState) : Prop :=
  t.currentDoc = s.currentDoc ∧ t.chunks = s.chunks ∧ t.storage = s.storage ∧
    t.searchResults = s.searchResults

/-- C1: every API client function (`uploadAndIndexDocument`,
`getCurrentDocument`, `getCurrentChunks`, `searchInDocument`,
`listStorageDocuments`, `uploadToStorage`, `loadFromStorage`) follows
the shared response-handling rule: on non-success status the thrown
error message is the response body text when non-empty and the fixed
fallback string otherwise; on success the parsed JSON body is returned
unchanged. -/
theorem apiClient_errorHandling :
    (∀ (fd : FormData) (r : Response UploadResponse),
        errorRuleHolds (uploadAndIndexDocument fd r).2 r) ∧
    (∀ (r : Response CurrentDocumentResponse), errorRuleHolds (getCurrentDocument r).2 r) ∧
    (∀ (r : Response (List ChunkSummary)), errorRuleHolds (getCurrentChunks r).2 r) ∧
    (∀ (q : String) (k : Int) (r : Response SearchResponse),
        errorRuleHolds (searchInDocument q k r).2 r) ∧
    (∀ (r : Response (List StorageEntry)), errorRuleHolds (listStorageDocuments r).2 r) ∧
    (∀ (fd : FormData) (r : Response StorageUploadResponse),
        errorRuleHolds (uploadToStorage fd r).2 r) ∧
    (∀ (p : LoadParams) (r : Response UploadResponse),
        errorRuleHolds (loadFromStorage p r).2 r) := by
  refine ⟨fun _ r => ?_, fun r => ?_, fun r => ?_, fun _ _ r => ?_, fun r => ?_,
    fun _ r => ?_, fun _ r => ?_⟩ <;> exact handleResponse_errorRule r

/-- C1 witness: the rule evaluated on three concrete responses. -/
theorem apiClient_errorHandling_witness :
    (getCurrentDocument ⟨false, "нет документа", sampleDoc⟩).2
        = Except.error "нет документа" ∧
    (uploadAndIndexDocument ⟨[]⟩ ⟨false, "", sampleDoc⟩).2 = Except.error fallbackMessage ∧
    (searchInDocument "hello" 3 ⟨true, "", sampleSearch⟩).2 = Except.ok sampleSearch := by
  refine ⟨?_, ?_, ?_⟩
  · exact (apiClient_errorHandling.2.1 ⟨false, "нет документа", sampleDoc⟩).1 rfl (by decide)
  · exact (apiClient_errorHandling.1 ⟨[]⟩ ⟨false, "", sampleDoc⟩).2.1 rfl rfl
  · exact (apiClient_errorHandling.2.2.2.1 "hello" 3 ⟨true, "", sampleSearch⟩).2.2 rfl

/-- C2: on a successful upload-and-index call, the returned descriptor
becomes the held current document (replacing the previous one
wholesale) and the chunk list is refreshed to the chunks fetched for
that document. -/
theorem uploadAndIndex_success (s : AppState) (f : String)
    (ur : Response UploadResponse) (cr : Response (List ChunkSummary))
    (hu : ur.ok = true) (hc : cr.ok = true) :
    (handleUploadAndIndex s (some f) ur cr).1.currentDoc = some ur.json ∧
    (handleUploadAndIndex s (some f) ur cr).1.chunks = cr.json := by
  simp [handleUploadAndIndex, uploadAndIndexDocument, handleResponse, refreshChunks,
    getCurrentChunks, hu, hc]

/-- C2 witness: a successful upload of `notes.txt` at a concrete state. -/
theorem uploadAndIndex_success_witness :
    (handleUploadAndIndex sampleState (some "notes.txt") ⟨true, "", sampleDoc⟩
        ⟨true, "", [⟨0, "chunk-a"⟩]⟩).1.currentDoc = some sampleDoc ∧
    (handleUploadAndIndex sampleState (some "notes.txt") ⟨true, "", sampleDoc⟩
        ⟨true, "", [⟨0, "chunk-a"⟩]⟩).1.chunks = [⟨0, "chunk-a"⟩] :=
  uploadAndIndex_success sampleState "notes.txt" ⟨true, "", sampleDoc⟩
    ⟨true, "", [⟨0, "chunk-a"⟩]⟩ rfl rfl

/-- C5: with an empty or whitespace-only query (JS `!query.trim()`),
the search handler issues no request and only sets the prompt status. -/
theorem search_emptyQuery_noRequest (s : AppState) (r : Response SearchResponse)
    (h : jsTrim s.query = "") :
    (handleSearch s r).2 = [] ∧
    (handleSearch s r).1 = { s with status := "Введите запрос для поиска" } := by
  simp [handleSearch, h]

/-- C5 witness: a whitespace-only query at a concrete state. -/
theorem search_emptyQuery_noRequest_witness :
    (handleSearch { sampleState with query := "   " } ⟨true, "", sampleSearch⟩).2 = [] ∧
    (handleSearch { sampleState with query := "   " } ⟨true, "", sampleSearch⟩).1
        = { sampleState with query := "   ", status := "Введите запрос для поиска" } :=
  search_emptyQuery_noRequest { sampleState with query := "   " } ⟨true, "", sampleSearch⟩
    (by decide)

/-- C6: `searchInDocument(query, topK)` issues one POST request to
`/api/search` with JSON body `{query, top_k: topK}`, and on a success
status returns exactly the response's results collection. -/
theorem searchInDocument_spec (q : String) (k : Int) (r : Response SearchResponse) :
    (searchInDocument q k r).1 = searchRequest q k ∧
    (searchRequest q k).url = API_BASE ++ "/api/search" ∧
    (searchRequest q k).method = "POST" ∧
    (searchRequest q k).body = RequestBody.jsonSearch q k ∧
    (r.ok = true → (searchInDocument q k r).2 = Except.ok ⟨r.json.results⟩) := by
  refine ⟨rfl, rfl, rfl, rfl, fun h => ?_⟩
  simp [searchInDocument, handleResponse, h]

/-- C6 witness: a concrete successful search call. -/
theorem searchInDocument_spec_witness :
    (searchInDocument "hello" 3 ⟨true, "", sampleSearch⟩).1 = searchRequest "hello" 3 ∧
    (searchInDocument "hello" 3 ⟨true, "", sampleSearch⟩).2
        = Except.ok ⟨sampleSearch.results⟩ :=
  ⟨(searchInDocument_spec "hello" 3 ⟨true, "", sampleSearch⟩).1,
   (searchInDocument_spec "hello" 3 ⟨true, "", sampleSearch⟩).2.2.2.2 rfl⟩

/-- C7: on a successful search (non-empty trimmed query), the handler
replaces the search-result collection wholesale with the response's
results, and the status reports a count equal to their number. -/
theorem search_success_replacesResults (s : AppState) (r : Response SearchResponse)
    (hq : ¬ jsTrim s.query = "") (hr : r.ok = true) :
    (handleSearch s r).1.searchResults = r.json.results ∧
    (handleSearch s r).1.status
        = "Найдено результатов: " ++ toString r.json.results.length := by
  simp [handleSearch, hq, searchInDocument, handleResponse, hr]

/-- C7 witness: a concrete successful search with two results. -/
theorem search_success_replacesResults_witness :
    (handleSearch sampleState ⟨true, "", sampleSearch⟩).1.searchResults
        = sampleSearch.results ∧
    (handleSearch sampleState ⟨true, "", sampleSearch⟩).1.status
        = "Найдено результатов: 2" :=
  search_success_replacesResults sampleState ⟨true, "", sampleSearch⟩ (by decide) rfl

/-- C8: while the busy flag is set, only the upload-and-index and
search buttons are disabled; the make-current and storage-upload
actions carry no such guard: their buttons stay enabled and their
handlers, invoked on a busy state, still issue their requests. -/
theorem busyFlag_guards (s : AppState) (fn pf : String)
    (lr : Response UploadResponse) (cr : Response (List ChunkSummary))
    (ur : Response StorageUploadResponse) (sr : Response (List StorageEntry))
    (h : s.isLoading = true) :
    uploadAndIndexButtonDisabled s = true ∧
    searchButtonDisabled s = true ∧
    makeCurrentButtonDisabled s = false ∧
    storageUploadButtonDisabled s = false ∧
    (handleMakeCurrent s fn lr cr).2 ≠ [] ∧
    (handleStorageUploadClick s (some pf) ur sr).2 ≠ [] := by
  obtain ⟨lok, lt, lj⟩ := lr
  obtain ⟨uok, ut, uj⟩ := ur
  cases lok <;> cases uok <;>
    simp_all [uploadAndIndexButtonDisabled, searchButtonDisabled, makeCurrentButtonDisabled,
      storageUploadButtonDisabled, handleMakeCurrent, handleStorageUploadClick,
      loadFromStorage, uploadToStorage, refreshChunks, refreshStorage, getCurrentChunks,
      listStorageDocuments, handleResponse]

/-- C8 witness: a concrete busy state. -/
theorem busyFlag_guards_witness :
    uploadAndIndexButtonDisabled { sampleState with isLoading := true } = true ∧
    searchButtonDisabled { sampleState with isLoading := true } = true ∧
    makeCurrentButtonDisabled { sampleState with isLoading := true } = false ∧
    storageUploadButtonDisabled { sampleState with isLoading := true } = false ∧
    (handleMakeCurrent { sampleState with isLoading := true } "notes.txt"
        ⟨true, "", sampleDoc⟩ ⟨true, "", []⟩).2 ≠ [] ∧
    (handleStorageUploadClick { sampleState with isLoading := true } (some "notes.txt")
        ⟨true, "", ⟨"notes.txt", 120, true⟩⟩ ⟨true, "", []⟩).2 ≠ [] :=
  busyFlag_guards { sampleState with isLoading := true } "notes.txt" "notes.txt"
    ⟨true, "", sampleDoc⟩ ⟨true, "", []⟩ ⟨true, "", ⟨"notes.txt", 120, true⟩⟩
    ⟨true, "", []⟩ rfl

/-- C9: every handler that sets the busy flag (upload-and-index with a
selected file, search with a non-empty query, make-current) leaves it
cleared when it finishes, whatever the outcome of its requests. -/
theorem busyFlag_reset (s : AppState) (f fn : String)
    (ur : Response UploadResponse) (cr : Response (List ChunkSummary))
    (sr : Response SearchResponse) (hq : ¬ jsTrim s.query = "") :
    (handleUploadAndIndex s (some f) ur cr).1.isLoading = false ∧
    (handleSearch s sr).1.isLoading = false ∧
    (handleMakeCurrent s fn ur cr).1.isLoading = false := by
  obtain ⟨uok, ut, uj⟩ := ur
  obtain ⟨cok, ct, cj⟩ := cr
  obtain ⟨sok, st', sj⟩ := sr
  cases uok <;> cases cok <;> cases sok <;>
    simp_all [handleUploadAndIndex, handleSearch, handleMakeCurrent,
      uploadAndIndexDocument, searchInDocument, loadFromStorage, refreshChunks,
      getCurrentChunks, handleResponse, hq]

/-- C9 witness: failing requests at a concrete state still clear the
busy flag. -/
theorem busyFlag_reset_witness :
    (handleUploadAndIndex sampleState (some "notes.txt") ⟨false, "err", sampleDoc⟩
        ⟨false, "err", []⟩).1.isLoading = false ∧
    (handleSearch sampleState ⟨false, "err", sampleSearch⟩).1.isLoading = false ∧
    (handleMakeCurrent sampleState "notes.txt" ⟨false, "err", sampleDoc⟩
        ⟨false, "err", []⟩).1.isLoading = false :=
  busyFlag_reset sampleState "notes.txt" "notes.txt" ⟨false, "err", sampleDoc⟩
    ⟨false, "err", []⟩ ⟨false, "err", sampleSearch⟩ (by decide)

/-- C10: when the main request of upload-and-index or make-current
succeeds but the following chunk refresh fails, the chunk list is
cleared to empty and the final status is still the success message for
the new current document, overwriting the chunk-error status. -/
theorem chunkRefreshFailure_statusOverwrite (s : AppState) (f fn : String)
    (ur : Response UploadResponse) (cr : Response (List ChunkSummary))
    (hu : ur.ok = true) (hc : cr.ok = false) :
    (handleUploadAndIndex s (some f) ur cr).1.chunks = [] ∧
    (handleUploadAndIndex s (some f) ur cr).1.status = docStatus ur.json ∧
    (handleMakeCurrent s fn ur cr).1.chunks = [] ∧
    (handleMakeCurrent s fn ur cr).1.status = docStatus ur.json := by
  simp [handleUploadAndIndex, handleMakeCurrent, uploadAndIndexDocument, loadFromStorage,
    refreshChunks, getCurrentChunks, handleResponse, hu, hc]

/-- C10 witness: a concrete successful index whose chunk refresh fails. -/
theorem chunkRefreshFailure_statusOverwrite_witness :
    (handleUploadAndIndex sampleState (some "notes.txt") ⟨true, "", sampleDoc⟩
        ⟨false, "err", []⟩).1.chunks = [] ∧
    (handleUploadAndIndex sampleState (some "notes.txt") ⟨true, "", sampleDoc⟩
        ⟨false, "err", []⟩).1.status
        = "Текущий документ: notes.txt, чанков: 5, модель: mini" ∧
    (handleMakeCurrent sampleState "notes.txt" ⟨true, "", sampleDoc⟩
        ⟨false, "err", []⟩).1.chunks = [] ∧
    (handleMakeCurrent sampleState "notes.txt" ⟨true, "", sampleDoc⟩
        ⟨false, "err", []⟩).1.status
        = "Текущий документ: notes.txt, чанков: 5, модель: mini" :=
  chunkRefreshFailure_statusOverwrite sampleState "notes.txt" "notes.txt"
    ⟨true, "", sampleDoc⟩ ⟨false, "err", []⟩ rfl rfl

/-- C3 counterexample: two actions other than search whose failing
request changes view state beyond the status message. The refresh-chunks
action (its button is always enabled) clears the chunk list on failure,
and the current-document refresh clears the current document on
failure. -/
theorem failedAction_frame_cex :
    (refreshChunks sampleState ⟨false, "err", []⟩).1.chunks ≠ sampleState.chunks ∧
    refreshChunksButtonDisabled sampleState = false ∧
    (refreshCurrentDocument { sampleState with currentDoc := some sampleDoc }
        ⟨false, "err", sampleDoc⟩).1.currentDoc
      ≠ ({ sampleState with currentDoc := some sampleDoc } : AppState).currentDoc := by
  decide

/-- C3 amended: for every action whose underlying request fails, the
handler sets the status message and leaves the other view state
unchanged, except that search clears the search results, the chunk
refresh clears the chunk list, and the current-document refresh clears
the current document. -/
theorem failedAction_frame (s : AppState) (f pf fn : String)
    (lsr : Response (List StorageEntry)) (cdr : Response CurrentDocumentResponse)
    (ccr : Response (List ChunkSummary)) (upr : Response UploadResponse)
    (sr : Response SearchResponse) (sur : Response StorageUploadResponse)
    (hls : lsr.ok = false) (hcd : cdr.ok = false) (hcc : ccr.ok = false)
    (hup : upr.ok = false) (hs : sr.ok = false) (hsu : sur.ok = false)
    (hq : ¬ jsTrim s.query = "") :
    (viewFrameExceptStatus s (refreshStorage s lsr).1 ∧
      (refreshStorage s lsr).1.status = statusError (strOr lsr.text fallbackMessage)) ∧
    ((refreshCurrentDocument s cdr).1.chunks = s.chunks ∧
      (refreshCurrentDocument s cdr).1.storage = s.storage ∧
      (refreshCurrentDocument s cdr).1.searchResults = s.searchResults ∧
      (refreshCurrentDocument s cdr).1.currentDoc = none ∧
      (refreshCurrentDocument s cdr).1.status = "Документ не загружен") ∧
    ((refreshChunks s ccr).1.currentDoc = s.currentDoc ∧
      (refreshChunks s ccr).1.storage = s.storage ∧
      (refreshChunks s ccr).1.searchResults = s.searchResults ∧
      (refreshChunks s ccr).1.chunks = [] ∧
      (refreshChunks s ccr).1.status = "Нет документа или не удалось загрузить чанки") ∧
    (viewFrameExceptStatus s (handleDrop s (some f) sur lsr).1 ∧
      (handleDrop s (some f) sur lsr).1.status
        = statusError (strOr sur.text fallbackMessage)) ∧
    (viewFrameExceptStatus s (handleStorageUploadClick s (some pf) sur lsr).1 ∧
      (handleStorageUploadClick s (some pf) sur lsr).1.status
        = statusError (strOr sur.text fallbackMessage)) ∧
    (viewFrameExceptStatus s (handleUploadAndIndex s (some f) upr ccr).1 ∧
      (handleUploadAndIndex s (some f) upr ccr).1.status
        = statusError (strOr upr.text fallbackMessage)) ∧
    ((handleSearch s sr).1.currentDoc = s.currentDoc ∧
      (handleSearch s sr).1.chunks = s.chunks ∧
      (handleSearch s sr).1.storage = s.storage ∧
      (handleSearch s sr).1.searchResults = [] ∧
      (handleSearch s sr).1.status = statusError (strOr sr.text fallbackMessage)) ∧
    (viewFrameExceptStatus s (handleMakeCurrent s fn upr ccr).1 ∧
      (handleMakeCurrent s fn upr ccr).1.status
        = statusError (strOr upr.text fallbackMessage)) := by
  obtain ⟨lok, lt, lj⟩ := lsr
  obtain ⟨dok, dt, dj⟩ := cdr
  obtain ⟨cok, ct, cj⟩ := ccr
  obtain ⟨pok, pt, pj⟩ := upr
  obtain ⟨sok, st', sj⟩ := sr
  obtain ⟨uok, ut, uj⟩ := sur
  subst hls hcd hcc hup hs hsu
  simp [viewFrameExceptStatus, refreshStorage, refreshCurrentDocument, refreshChunks,
    handleDrop, handleStorageUploadClick, handleUploadAndIndex, handleSearch,
    handleMakeCurrent, listStorageDocuments, getCurrentDocument, getCurrentChunks,
    uploadToStorage, uploadAndIndexDocument, searchInDocument, loadFromStorage,
    handleResponse, hq]

/-- C3 amended witness: the frame property of a failing storage refresh
at a concrete state, with every failing response concrete. -/
theorem failedAction_frame_witness :
    viewFrameExceptStatus sampleState (refreshStorage sampleState ⟨false, "err", []⟩).1 ∧
    (refreshStorage sampleState ⟨false, "err", []⟩).1.status = statusError "err" :=
  (failedAction_frame sampleState "a.txt" "b.txt" "c.txt" ⟨false, "err", []⟩
    ⟨false, "err", sampleDoc⟩ ⟨false, "err", []⟩ ⟨false, "err", sampleDoc⟩
    ⟨false, "err", sampleSearch⟩ ⟨false, "err", ⟨"a.txt", 1, false⟩⟩
    rfl rfl rfl rfl rfl rfl (by decide)).1

/-- C4 counterexample: on mount with no current document (the
current-document fetch fails), the chunks request is still issued, and
the final status is the chunk-error text, not the default text. -/
theorem mount_cex :
    (mount initialAppState ⟨true, "", []⟩ ⟨false, "", sampleDoc⟩ ⟨false, "", []⟩).2
        = [storageListRequest, currentDocRequest, currentChunksRequest] ∧
    (mount initialAppState ⟨true, "", []⟩ ⟨false, "", sampleDoc⟩
        ⟨false, "", []⟩).1.currentDoc = none ∧
    (mount initialAppState ⟨true, "", []⟩ ⟨false, "", sampleDoc⟩ ⟨false, "", []⟩).1.status
        ≠ "Документ не загружен" ∧
    (mount initialAppState ⟨true, "", []⟩ ⟨false, "", sampleDoc⟩ ⟨false, "", []⟩).1.status
        = "Нет документа или не удалось загрузить чанки" := by
  decide

/-- C4 amended: on mount the controller issues the storage-list request,
then the current-document request, then unconditionally the chunks
request (whether or not a current document is present). A present
current document is stored; an absent one clears the current document,
and the subsequent failing chunk fetch clears the chunk list and leaves
the chunk-error status text in place of the default text. -/
theorem mount_behavior (s : AppState) (lsr : Response (List StorageEntry))
    (cdr : Response CurrentDocumentResponse) (ccr : Response (List ChunkSummary)) :
    (mount s lsr cdr ccr).2
        = [storageListRequest, currentDocRequest, currentChunksRequest] ∧
    (cdr.ok = true → (mount s lsr cdr ccr).1.currentDoc = some cdr.json) ∧
    (cdr.ok = false → (mount s lsr cdr ccr).1.currentDoc = none) ∧
    (cdr.ok = false → ccr.ok = false →
      (mount s lsr cdr ccr).1.chunks = [] ∧
      (mount s lsr cdr ccr).1.status = "Нет документа или не удалось загрузить чанки") ∧
    (ccr.ok = true → (mount s lsr cdr ccr).1.chunks = ccr.json) ∧
    (lsr.ok = true → (mount s lsr cdr ccr).1.storage = lsr.json) := by
  obtain ⟨lok, lt, lj⟩ := lsr
  obtain ⟨dok, dt, dj⟩ := cdr
  obtain ⟨cok, ct, cj⟩ := ccr
  cases lok <;> cases dok <;> cases cok <;>
    simp [mount, refreshStorage, refreshCurrentDocument, refreshChunks,
      listStorageDocuments, getCurrentDocument, getCurrentChunks, handleResponse]

/-- C4 amended witness: a concrete mount with a storage list, no
current document, and a failing chunk fetch. -/
theorem mount_behavior_witness :
    (mount initialAppState ⟨true, "", [⟨"a.txt", 10, "2026-01-01"⟩]⟩
        ⟨false, "", sampleDoc⟩ ⟨false, "", []⟩).1.currentDoc = none ∧
    (mount initialAppState ⟨true, "", [⟨"a.txt", 10, "2026-01-01"⟩]⟩
        ⟨false, "", sampleDoc⟩ ⟨false, "", []⟩).1.storage
        = [⟨"a.txt", 10, "2026-01-01"⟩] :=
  ⟨(mount_behavior initialAppState ⟨true, "", [⟨"a.txt", 10, "2026-01-01"⟩]⟩
      ⟨false, "", sampleDoc⟩ ⟨false, "", []⟩).2.2.1 rfl,
   (mount_behavior initialAppState ⟨true, "", [⟨"a.txt", 10, "2026-01-01"⟩]⟩
      ⟨false, "", sampleDoc⟩ ⟨false, "", []⟩).2.2.2.2.2 rfl⟩

end RAG
